import Mathlib

/-!
Shallow embedding of the Stellar insurance contracts
(`contracts/claims/lib.rs` and `contracts/policy/lib.rs`).

Addresses are modelled as natural numbers, `i128` amounts as `Int`,
`u64`/`u32` quantities as `Nat` (with explicit bounds checks where the
source uses checked arithmetic).  Soroban persistent storage is modelled
as explicit record state; `env.invoke_contract` results are supplied by
an oracle environment and every outgoing cross-contract call is recorded
in a trace list.  A contract function that returns `Err` aborts the
invocation, and the Soroban host rolls back all of that invocation's
storage writes, so every error branch of the embedding returns the
original (unchanged) state.  `require_auth` traps (it does not return an
error value), so an operation that reaches its body is modelled as being
invoked by an authenticated caller.
-/

/-- Modelled from the spec: the claim lifecycle states, imported by the
source from the common library `insurance_contracts::types::ClaimStatus`
(not included under `src/`); the spec fixes the closed graph
`Submitted→UnderReview→{Approved,Rejected}`, `Approved→Settled`. -/
inductive ClaimStatus where
  | Submitted
  | UnderReview
  | Approved
  | Rejected
  | Settled
deriving DecidableEq, Repr

namespace ClaimsContract

/-- `OracleValidationConfig` from `claims/lib.rs`. -/
structure OracleValidationConfig where
  oracle_contract : Nat
  require_oracle_validation : Bool
  min_oracle_submissions : Nat
deriving DecidableEq, Repr

/-- `ContractError` enum of `claims/lib.rs`. -/
inductive ContractError where
  | Unauthorized
  | Paused
  | InvalidInput
  | InsufficientFunds
  | NotFound
  | AlreadyExists
  | InvalidState
  | NotInitialized
  | AlreadyInitialized
  | OracleValidationFailed
  | InsufficientOracleSubmissions
  | OracleDataStale
  | OracleOutlierDetected
deriving DecidableEq, Repr

/-- A stored claim record: the tuple
`(policy_id, claimant, amount, status, timestamp)` persisted under the
`(CLAIM, claim_id)` key. -/
structure ClaimRec where
  policy_id : Nat
  claimant : Nat
  amount : Int
  status : ClaimStatus
  submitted_at : Nat
deriving DecidableEq, Repr

/-- Persistent storage of the claims contract: `ADMIN`, `CONFIG`
(= `(policy_contract, risk_pool)`), `PAUSED`, the `(CLAIM, id)` map, the
`(P_CLAIM, policy_id)` secondary index, `ORA_CFG`, and the
`(CLM_ORA, claim_id)` audit map. -/
structure ClaimsState where
  admin : Option Nat
  config : Option (Nat × Nat)
  paused : Bool
  claims : Nat → Option ClaimRec
  policyClaim : Nat → Option Nat
  oracleCfg : Option OracleValidationConfig
  clmOra : Nat → Option Nat

/-- Ledger context: `env.ledger().sequence()` and
`env.ledger().timestamp()`. -/
structure Ledger where
  sequence : Nat
  timestamp : Nat

/-- Responses of the external oracle contract, as observed through
`env.invoke_contract`: `get_submission_count(data_id) -> u32` and
`resolve_oracle_data(data_id) -> (i128, u32, u32, u64)`.  A failing
invocation traps and aborts the whole enclosing call, so only the
successful responses are modelled. -/
structure OracleEnv where
  submissionCount : Nat → Nat
  resolve : Nat → Int × Nat × Nat × Nat

/-- One outgoing `env.invoke_contract` call, recorded in order. -/
inductive ExtCall where
  | getSubmissionCount (oracle dataId : Nat)
  | resolveOracleData (oracle dataId : Nat)
  | reserveLiquidity (riskPool claimId : Nat) (amount : Int)
  | payoutReserved (riskPool claimId claimant : Nat)
deriving DecidableEq, Repr

/-- `is_paused` from `claims/lib.rs` (`unwrap_or(false)` is absorbed in
the `paused : Bool` field, which defaults to `false` in initial states
used below). -/
def is_paused (st : ClaimsState) : Bool := st.paused

/-- `validate_claim_with_oracle` from `claims/lib.rs` lines 116–157.
Returns the result, the post state, and the trace of oracle calls. -/
def validate_claim_with_oracle (st : ClaimsState) (ora : OracleEnv)
    (claim_id oracle_data_id : Nat) :
    Except ContractError Bool × ClaimsState × List ExtCall :=
  match st.oracleCfg with
  | none => (.error .NotFound, st, [])
  | some cfg =>
    if !cfg.require_oracle_validation then
      (.ok true, st, [])
    else
      let submission_count := ora.submissionCount oracle_data_id
      let calls := [ExtCall.getSubmissionCount cfg.oracle_contract oracle_data_id]
      if submission_count < cfg.min_oracle_submissions then
        (.error .InsufficientOracleSubmissions, st, calls)
      else
        let calls := calls ++ [ExtCall.resolveOracleData cfg.oracle_contract oracle_data_id]
        (.ok true,
         { st with clmOra := fun k => if k = claim_id then some oracle_data_id else st.clmOra k },
         calls)

/-- `submit_claim` from `claims/lib.rs` lines 168–212.  `claimant`
authenticates via `require_auth` (a trap, not an error).  The claim id is
`env.ledger().sequence() + 1` (`sequence` is a `u32` widened to `u64`, so
the `+ 1` cannot overflow). -/
def submit_claim (st : ClaimsState) (led : Ledger)
    (claimant policy_id : Nat) (amount : Int) :
    Except ContractError Nat × ClaimsState :=
  if is_paused st then (.error .Paused, st)
  else if amount ≤ 0 then (.error .InvalidInput, st)
  else if (st.policyClaim policy_id).isSome then (.error .AlreadyExists, st)
  else
    let claim_id := led.sequence + 1
    let rec_ : ClaimRec :=
      { policy_id := policy_id, claimant := claimant, amount := amount,
        status := .Submitted, submitted_at := led.timestamp }
    (.ok claim_id,
     { st with
        claims := fun k => if k = claim_id then some rec_ else st.claims k,
        policyClaim := fun p => if p = policy_id then some claim_id else st.policyClaim p })

/-- `get_claim` from `claims/lib.rs`. -/
def get_claim (st : ClaimsState) (claim_id : Nat) : Except ContractError ClaimRec :=
  match st.claims claim_id with
  | none => .error .NotFound
  | some c => .ok c

/-- `approve_claim` from `claims/lib.rs` lines 224–290.  When an oracle
config is stored and `require_oracle_validation` holds, the function
requires a caller-supplied `oracle_data_id`, queries (and discards) the
oracle's submission count, and records the oracle reference; it then
reserves liquidity in the risk pool and marks the claim `Approved`. -/
def approve_claim (st : ClaimsState) (ora : OracleEnv)
    (claim_id : Nat) (oracle_data_id : Option Nat) :
    Except ContractError Unit × ClaimsState × List ExtCall :=
  match st.admin with
  | none => (.error .NotInitialized, st, [])
  | some _ =>
    match st.claims claim_id with
    | none => (.error .NotFound, st, [])
    | some claim =>
      if claim.status ≠ ClaimStatus.UnderReview then
        (.error .InvalidState, st, [])
      else
        let gate :
            Except ContractError ((Nat → Option Nat) × List ExtCall) :=
          match st.oracleCfg with
          | some cfg =>
            if cfg.require_oracle_validation then
              match oracle_data_id with
              | some oid =>
                -- `_submission_count` is fetched and discarded; no
                -- minimum check and no `resolve_oracle_data` call here.
                .ok (fun k => if k = claim_id then some oid else st.clmOra k,
                     [ExtCall.getSubmissionCount cfg.oracle_contract oid])
              | none => .error .OracleValidationFailed
            else .ok (st.clmOra, [])
          | none => .ok (st.clmOra, [])
        match gate with
        | .error e => (.error e, st, [])
        | .ok (clmOra', gateCalls) =>
          match st.config with
          | none => (.error .NotInitialized, st, gateCalls)
          | some (_, risk_pool) =>
            let calls := gateCalls ++ [ExtCall.reserveLiquidity risk_pool claim_id claim.amount]
            let claim' := { claim with status := ClaimStatus.Approved }
            (.ok (),
             { st with
                clmOra := clmOra',
                claims := fun k => if k = claim_id then some claim' else st.claims k },
             calls)

/-- `start_review` from `claims/lib.rs` lines 292–324. -/
def start_review (st : ClaimsState) (claim_id : Nat) :
    Except ContractError Unit × ClaimsState :=
  match st.admin with
  | none => (.error .NotInitialized, st)
  | some _ =>
    match st.claims claim_id with
    | none => (.error .NotFound, st)
    | some claim =>
      if claim.status ≠ ClaimStatus.Submitted then
        (.error .InvalidState, st)
      else
        let claim' := { claim with status := ClaimStatus.UnderReview }
        (.ok (), { st with claims := fun k => if k = claim_id then some claim' else st.claims k })

/-- `reject_claim` from `claims/lib.rs` lines 326–358. -/
def reject_claim (st : ClaimsState) (claim_id : Nat) :
    Except ContractError Unit × ClaimsState :=
  match st.admin with
  | none => (.error .NotInitialized, st)
  | some _ =>
    match st.claims claim_id with
    | none => (.error .NotFound, st)
    | some claim =>
      if claim.status ≠ ClaimStatus.UnderReview then
        (.error .InvalidState, st)
      else
        let claim' := { claim with status := ClaimStatus.Rejected }
        (.ok (), { st with claims := fun k => if k = claim_id then some claim' else st.claims k })

/-- `settle_claim` from `claims/lib.rs` lines 360–407. -/
def settle_claim (st : ClaimsState) (claim_id : Nat) :
    Except ContractError Unit × ClaimsState × List ExtCall :=
  match st.admin with
  | none => (.error .NotInitialized, st, [])
  | some _ =>
    match st.claims claim_id with
    | none => (.error .NotFound, st, [])
    | some claim =>
      if claim.status ≠ ClaimStatus.Approved then
        (.error .InvalidState, st, [])
      else
        match st.config with
        | none => (.error .NotInitialized, st, [])
        | some (_, risk_pool) =>
          let calls := [ExtCall.payoutReserved risk_pool claim_id claim.claimant]
          let claim' := { claim with status := ClaimStatus.Settled }
          (.ok (),
           { st with claims := fun k => if k = claim_id then some claim' else st.claims k },
           calls)

end ClaimsContract

namespace PolicyContract

/-- Policy validation constants from `policy/lib.rs`. -/
def MIN_COVERAGE_AMOUNT : Int := 1000000

def MAX_COVERAGE_AMOUNT : Int := 1000000000000000

def MIN_PREMIUM_AMOUNT : Int := 100000

def MAX_PREMIUM_AMOUNT : Int := 100000000000000

def MIN_POLICY_DURATION_DAYS : Nat := 1

def MAX_POLICY_DURATION_DAYS : Nat := 365

/-- Largest `u64` value, for the source's `checked_add`/`checked_mul`. -/
def U64_MAX : Nat := 18446744073709551615

/-- `u64::checked_mul`. -/
def checked_mul (a b : Nat) : Option Nat :=
  if a * b ≤ U64_MAX then some (a * b) else none

/-- `u64::checked_add`. -/
def checked_add (a b : Nat) : Option Nat :=
  if a + b ≤ U64_MAX then some (a + b) else none

/-- `PolicyState` from `policy/lib.rs`. -/
inductive PolicyState where
  | Active
  | Expired
  | Cancelled
deriving DecidableEq, Repr

/-- `PolicyState::can_transition_to` from `policy/lib.rs` lines 59–70. -/
def PolicyState.can_transition_to : PolicyState → PolicyState → Bool
  | .Active, .Expired => true
  | .Active, .Cancelled => true
  | _, _ => false

/-- `ContractError` enum of `policy/lib.rs` lines 166–185.  The extra
constructor `InvalidStateTransition` is the variant named by
`Policy::transition_to` (line 116): the declared Rust enum does not
contain it (only the unused `PolicyError` enum does), so the source as
written does not compile; the embedding includes it so that
`transition_to` can return exactly the error the source text names. -/
inductive ContractError where
  | Unauthorized
  | Paused
  | InvalidInput
  | InsufficientFunds
  | NotFound
  | AlreadyExists
  | InvalidState
  | Overflow
  | NotInitialized
  | AlreadyInitialized
  | InvalidRole
  | RoleNotFound
  | NotTrustedContract
  | InvalidPolicyState
  | InvalidAmount
  | InvalidPremium
  | Overflow2
  | InvalidStateTransition
deriving DecidableEq, Repr

/-- `Policy` struct from `policy/lib.rs`. -/
structure Policy where
  holder : Nat
  coverage_amount : Int
  premium_amount : Int
  start_time : Nat
  end_time : Nat
  state : PolicyState
  created_at : Nat
deriving DecidableEq, Repr

/-- `Policy::new` — a fresh policy in `Active` state. -/
def Policy.new (holder : Nat) (coverage_amount premium_amount : Int)
    (start_time end_time created_at : Nat) : Policy :=
  { holder := holder, coverage_amount := coverage_amount,
    premium_amount := premium_amount, start_time := start_time,
    end_time := end_time, state := .Active, created_at := created_at }

/-- `Policy::transition_to` from `policy/lib.rs` lines 114–120. -/
def Policy.transition_to (p : Policy) (next : PolicyState) :
    Except ContractError Policy :=
  if ¬ p.state.can_transition_to next then
    .error .InvalidStateTransition
  else
    .ok { p with state := next }

/-- `Policy::cancel`. -/
def Policy.cancel (p : Policy) : Except ContractError Policy :=
  p.transition_to .Cancelled

/-- `Policy::expire`. -/
def Policy.expire (p : Policy) : Except ContractError Policy :=
  p.transition_to .Expired

/-- `validate_coverage_amount` from `policy/lib.rs` lines 256–261. -/
def validate_coverage_amount (amount : Int) : Except ContractError Unit :=
  if amount < MIN_COVERAGE_AMOUNT ∨ amount > MAX_COVERAGE_AMOUNT then
    .error .InvalidAmount
  else .ok ()

/-- `validate_premium_amount` from `policy/lib.rs` lines 264–269. -/
def validate_premium_amount (premium : Int) : Except ContractError Unit :=
  if premium < MIN_PREMIUM_AMOUNT ∨ premium > MAX_PREMIUM_AMOUNT then
    .error .InvalidPremium
  else .ok ()

/-- `validate_duration` from `policy/lib.rs` lines 272–277. -/
def validate_duration (duration_days : Nat) : Except ContractError Unit :=
  if duration_days < MIN_POLICY_DURATION_DAYS ∨ duration_days > MAX_POLICY_DURATION_DAYS then
    .error .InvalidInput
  else .ok ()

/-- Persistent storage of the policy contract (`DataKey` variants
`Paused`, `Config`, `Policy(id)`, `PolicyCounter`). -/
structure PolicyStorage where
  paused : Bool
  risk_pool : Option Nat
  policies : Nat → Option Policy
  policyCounter : Nat

/-- Modelled from the spec: the Authorization Collaborator used by the
source through `insurance_contracts::authorization` (not included under
`src/`).  The spec reduces it to a yes/no capability check ("does
principal P hold capability C?"): `policyManagerOk m` is the outcome of
`require_policy_management(&env, &m)` and `adminOk` the outcome of the
principal-less `require_admin(&env)` call used by
`cancel_policy`/`expire_policy`; a failed check yields `Unauthorized`. -/
structure AuthEnv where
  policyManagerOk : Nat → Bool
  adminOk : Bool

/-- `Ledger` context for the policy contract. -/
structure PLedger where
  timestamp : Nat

/-- `issue_policy` from `policy/lib.rs` lines 314–365.  `next_policy_id`
increments the stored counter before the overflow-checked `end_time`
computation; an `Err` return rolls the write back, so the error branches
return the unchanged state. -/
def issue_policy (st : PolicyStorage) (auth : AuthEnv) (led : PLedger)
    (manager holder : Nat) (coverage_amount premium_amount : Int)
    (duration_days : Nat) : Except ContractError Nat × PolicyStorage :=
  if ¬ auth.policyManagerOk manager then (.error .Unauthorized, st)
  else if st.paused then (.error .Paused, st)
  else
    match validate_coverage_amount coverage_amount with
    | .error e => (.error e, st)
    | .ok _ =>
      match validate_premium_amount premium_amount with
      | .error e => (.error e, st)
      | .ok _ =>
        match validate_duration duration_days with
        | .error e => (.error e, st)
        | .ok _ =>
          let policy_id := st.policyCounter + 1
          match checked_mul duration_days 86400 with
          | none => (.error .Overflow2, st)
          | some secs =>
            match checked_add led.timestamp secs with
            | none => (.error .Overflow2, st)
            | some end_time =>
              let policy := Policy.new holder coverage_amount premium_amount
                led.timestamp end_time led.timestamp
              (.ok policy_id,
               { st with
                  policyCounter := policy_id,
                  policies := fun k => if k = policy_id then some policy else st.policies k })

/-- `cancel_policy` from `policy/lib.rs` lines 420–442. -/
def cancel_policy (st : PolicyStorage) (auth : AuthEnv) (policy_id : Nat) :
    Except ContractError Unit × PolicyStorage :=
  if ¬ auth.adminOk then (.error .Unauthorized, st)
  else
    match st.policies policy_id with
    | none => (.error .NotFound, st)
    | some p =>
      match p.cancel with
      | .error e => (.error e, st)
      | .ok p' =>
        (.ok (), { st with policies := fun k => if k = policy_id then some p' else st.policies k })

/-- `expire_policy` from `policy/lib.rs` lines 445–467. -/
def expire_policy (st : PolicyStorage) (auth : AuthEnv) (policy_id : Nat) :
    Except ContractError Unit × PolicyStorage :=
  if ¬ auth.adminOk then (.error .Unauthorized, st)
  else
    match st.policies policy_id with
    | none => (.error .NotFound, st)
    | some p =>
      match p.expire with
      | .error e => (.error e, st)
      | .ok p' =>
        (.ok (), { st with policies := fun k => if k = policy_id then some p' else st.policies k })

end PolicyContract

namespace ClaimsContract

/-- An oracle environment that reports zero submissions for every data
id (and a dummy resolution). -/
def oraZero : OracleEnv :=
  { submissionCount := fun _ => 0, resolve := fun _ => (0, 0, 0, 0) }

/-- An initialized, unpaused claims-contract state with no claims and no
oracle configuration; policy contract at address 100, risk pool at 200. -/
def stEmpty : ClaimsState :=
  { admin := some 0, config := some (100, 200), paused := false,
    claims := fun _ => none, policyClaim := fun _ => none,
    oracleCfg := none, clmOra := fun _ => none }

/-- A settled claim record against policy 1 by claimant 7 for amount 5. -/
def recSettled : ClaimRec :=
  { policy_id := 1, claimant := 7, amount := 5, status := .Settled,
    submitted_at := 0 }

/-- An approved claim record against policy 1 by claimant 7 for amount 5. -/
def recApproved : ClaimRec :=
  { policy_id := 1, claimant := 7, amount := 5, status := .Approved,
    submitted_at := 0 }

/-- An under-review claim record against policy 1 by claimant 7 for
amount 5. -/
def recUnderReview : ClaimRec :=
  { policy_id := 1, claimant := 7, amount := 5, status := .UnderReview,
    submitted_at := 0 }

/-- `stEmpty` holding the given record as claim 1 of policy 1. -/
def stWith (c : ClaimRec) : ClaimsState :=
  { stEmpty with
      claims := fun k => if k = 1 then some c else none,
      policyClaim := fun p => if p = 1 then some 1 else none }

/-- An oracle configuration requiring validation with at least 5
submissions from the oracle contract at address 3. -/
def cfgStrict : OracleValidationConfig :=
  { oracle_contract := 3, require_oracle_validation := true,
    min_oracle_submissions := 5 }

/-- An oracle configuration with validation disabled. -/
def cfgOff : OracleValidationConfig :=
  { oracle_contract := 3, require_oracle_validation := false,
    min_oracle_submissions := 5 }

/-- Ledger at sequence 0, timestamp 0. -/
def led0 : Ledger := { sequence := 0, timestamp := 0 }

/-- Ledger at sequence 1, timestamp 50. -/
def led1 : Ledger := { sequence := 1, timestamp := 50 }

/-- State after claimant 10 submits a claim for policy 1, amount 5, at
ledger sequence 0, starting from `stEmpty`. -/
def stAfterFirst : ClaimsState := (submit_claim stEmpty led0 10 1 5).2

/-- State after a second submission (claimant 11, policy 2, amount 7)
at ledger sequence 1, starting from `stAfterFirst`. -/
def stAfterSecond : ClaimsState := (submit_claim stAfterFirst led1 11 2 7).2

/-- `stWith recUnderReview` with the disabled oracle configuration. -/
def stCfgOff : ClaimsState := { stWith recUnderReview with oracleCfg := some cfgOff }

/-- `stWith recUnderReview` with the strict oracle configuration. -/
def stCfgStrict : ClaimsState := { stWith recUnderReview with oracleCfg := some cfgStrict }

end ClaimsContract

namespace PolicyContract

/-- An authorization environment in which every principal holds the
policy-manager capability and the admin check passes. -/
def authAll : AuthEnv := { policyManagerOk := fun _ => true, adminOk := true }

/-- A cancelled policy for holder 5 (coverage 2000000, premium 200000). -/
def polCancelled : Policy :=
  { holder := 5, coverage_amount := 2000000, premium_amount := 200000,
    start_time := 0, end_time := 100, state := .Cancelled, created_at := 0 }

/-- An initialized, unpaused policy-contract state holding the cancelled
policy `polCancelled` as policy 1. -/
def stPol : PolicyStorage :=
  { paused := false, risk_pool := some 200,
    policies := fun k => if k = 1 then some polCancelled else none,
    policyCounter := 1 }

/-- An initialized, unpaused policy-contract state with no policies. -/
def stPolEmpty : PolicyStorage :=
  { paused := false, risk_pool := some 200,
    policies := fun _ => none, policyCounter := 0 }

/-- A ledger whose timestamp is the largest `u64` value, so that any
`end_time` computation overflows. -/
def ledMax : PLedger := { timestamp := 18446744073709551615 }

/-- A ledger at timestamp 1000. -/
def led1000 : PLedger := { timestamp := 1000 }

end PolicyContract

namespace ClaimsContract

/-- Inversion for a successful `submit_claim`: all guards passed, the
claim id is the ledger sequence plus one, and the post state is the
input state extended with the new claim record and index entry. -/
theorem submit_claim_inv {st st' : ClaimsState} {led : Ledger}
    {claimant policy_id : Nat} {amount : Int} {cid : Nat}
    (h : submit_claim st led claimant policy_id amount = (.ok cid, st')) :
    st.paused = false ∧ 0 < amount ∧ st.policyClaim policy_id = none ∧
    cid = led.sequence + 1 ∧
    st'.admin = st.admin ∧ st'.config = st.config ∧
    st'.paused = st.paused ∧ st'.oracleCfg = st.oracleCfg ∧
    st'.policyClaim policy_id = some cid ∧
    st'.claims cid = some (ClaimRec.mk policy_id claimant amount .Submitted led.timestamp) ∧
    (∀ k, k ≠ cid → st'.claims k = st.claims k) := by
  unfold submit_claim is_paused at h
  by_cases hp : st.paused
  · simp [hp] at h
  · by_cases ha : amount ≤ 0
    · simp [hp, ha] at h
    · by_cases hd : (st.policyClaim policy_id).isSome
      · simp [hp, ha, hd] at h
      · simp only [hp, ha, hd, if_neg, if_false, Bool.false_eq_true,
          not_false_eq_true, Prod.mk.injEq, Except.ok.injEq] at h
        obtain ⟨hcid, hst⟩ := h
        subst hst
        subst hcid
        refine ⟨by simp [hp], lt_of_not_le ha,
          Option.not_isSome_iff_eq_none.mp hd, rfl, rfl, rfl, by simp [hp],
          rfl, by simp, by simp, ?_⟩
        intro k hk
        simp [hk]

end ClaimsContract

namespace ClaimsContract

/-- C1: the claim lifecycle moves only along the closed graph
`Submitted→UnderReview→{Approved,Rejected}`, `Approved→Settled`: each
transition operation (`start_review` requires `Submitted`,
`reject_claim` and `approve_claim` require `UnderReview`, `settle_claim`
requires `Approved`) fails with `InvalidState` when the claim is not in
its required source state and leaves the claim record (indeed the whole
state) unchanged; consequently the terminal states `Rejected` and
`Settled` admit no further transition by any of these operations. -/
theorem claim_transition_graph_closed (st : ClaimsState) (ora : OracleEnv)
    (cid : Nat) (c : ClaimRec) (a : Nat) (odid : Option Nat)
    (hadmin : st.admin = some a) (hc : st.claims cid = some c) :
    (c.status ≠ .Submitted → start_review st cid = (.error .InvalidState, st)) ∧
    (c.status ≠ .UnderReview → reject_claim st cid = (.error .InvalidState, st)) ∧
    (c.status ≠ .UnderReview → approve_claim st ora cid odid = (.error .InvalidState, st, [])) ∧
    (c.status ≠ .Approved → settle_claim st cid = (.error .InvalidState, st, [])) ∧
    (c.status = .Rejected ∨ c.status = .Settled →
      start_review st cid = (.error .InvalidState, st) ∧
      reject_claim st cid = (.error .InvalidState, st) ∧
      approve_claim st ora cid odid = (.error .InvalidState, st, []) ∧
      settle_claim st cid = (.error .InvalidState, st, [])) := by
  refine ⟨?_, ?_, ?_, ?_, ?_⟩
  · intro h; simp [start_review, hadmin, hc, h]
  · intro h; simp [reject_claim, hadmin, hc, h]
  · intro h; simp [approve_claim, hadmin, hc, h]
  · intro h; simp [settle_claim, hadmin, hc, h]
  · intro h
    have h1 : c.status ≠ .Submitted := by rcases h with h | h <;> simp [h]
    have h2 : c.status ≠ .UnderReview := by rcases h with h | h <;> simp [h]
    have h3 : c.status ≠ .Approved := by rcases h with h | h <;> simp [h]
    exact ⟨by simp [start_review, hadmin, hc, h1],
      by simp [reject_claim, hadmin, hc, h2],
      by simp [approve_claim, hadmin, hc, h2],
      by simp [settle_claim, hadmin, hc, h3]⟩

/-- Witness for C1: on a concrete state holding a `Settled` claim, all
four transition operations fail with `InvalidState` and leave the state
unchanged. -/
theorem claim_transition_graph_closed_witness :
    start_review (stWith recSettled) 1 = (.error .InvalidState, stWith recSettled) ∧
    reject_claim (stWith recSettled) 1 = (.error .InvalidState, stWith recSettled) ∧
    approve_claim (stWith recSettled) oraZero 1 none = (.error .InvalidState, stWith recSettled, []) ∧
    settle_claim (stWith recSettled) 1 = (.error .InvalidState, stWith recSettled, []) :=
  (claim_transition_graph_closed (stWith recSettled) oraZero 1 recSettled 0 none
    rfl rfl).2.2.2.2 (Or.inr rfl)

/-- C2: once a `submit_claim` call for a policy id has succeeded, any
subsequent `submit_claim` call for the same policy id (with a positive
amount) fails with `AlreadyExists` and returns the stored state
unchanged — no claim is created and nothing is modified — so at most one
claim exists per policy id. -/
theorem submit_claim_second_call_fails {st st' : ClaimsState} {led led' : Ledger}
    {c1 c2 policy_id : Nat} {a1 a2 : Int} {cid : Nat}
    (h1 : submit_claim st led c1 policy_id a1 = (.ok cid, st'))
    (ha2 : 0 < a2) :
    submit_claim st' led' c2 policy_id a2 = (.error .AlreadyExists, st') := by
  obtain ⟨hp, -, -, -, -, -, hp', -, hidx, -, -⟩ := submit_claim_inv h1
  unfold submit_claim is_paused
  rw [hp', hp]
  simp [hidx, not_le.mpr ha2]

/-- Witness for C2: after claimant 10's successful submission for
policy 1, claimant 11's submission for the same policy fails with
`AlreadyExists` and the state is unchanged. -/
theorem submit_claim_second_call_fails_witness :
    submit_claim stAfterFirst led1 11 1 9 = (.error .AlreadyExists, stAfterFirst) :=
  @submit_claim_second_call_fails stEmpty stAfterFirst led0 led1 10 11 1 5 9 1
    rfl (by decide)

/-- C5: `approve_claim` on an existing claim whose state is not
`UnderReview` fails with `InvalidState`, makes no cross-contract call at
all (in particular it does not invoke the risk pool's
`reserve_liquidity`), and leaves all stored state unchanged. -/
theorem approve_claim_not_under_review (st : ClaimsState) (ora : OracleEnv)
    (cid : Nat) (c : ClaimRec) (a : Nat) (odid : Option Nat)
    (hadmin : st.admin = some a) (hc : st.claims cid = some c)
    (hs : c.status ≠ .UnderReview) :
    approve_claim st ora cid odid = (.error .InvalidState, st, []) := by
  simp [approve_claim, hadmin, hc, hs]

/-- Witness for C5: approving an already-`Approved` claim fails with
`InvalidState`, with no external call and no state change. -/
theorem approve_claim_not_under_review_witness :
    approve_claim (stWith recApproved) oraZero 1 none =
      (.error .InvalidState, stWith recApproved, []) :=
  approve_claim_not_under_review (stWith recApproved) oraZero 1 recApproved 0 none
    rfl rfl (by decide)

end ClaimsContract

namespace ClaimsContract

/-- C8: with a stored oracle configuration, `validate_claim_with_oracle`
returns success with no oracle invocation when
`require_oracle_validation` is false, and fails with
`InsufficientOracleSubmissions` (after only the submission-count query)
whenever validation is required and the oracle-reported count is below
the configured minimum. -/
theorem validate_claim_with_oracle_gate (st : ClaimsState) (ora : OracleEnv)
    (cid oid : Nat) (cfg : OracleValidationConfig)
    (hcfg : st.oracleCfg = some cfg) :
    (cfg.require_oracle_validation = false →
      validate_claim_with_oracle st ora cid oid = (.ok true, st, [])) ∧
    (cfg.require_oracle_validation = true →
      ora.submissionCount oid < cfg.min_oracle_submissions →
      validate_claim_with_oracle st ora cid oid =
        (.error .InsufficientOracleSubmissions, st,
          [ExtCall.getSubmissionCount cfg.oracle_contract oid])) := by
  constructor
  · intro h
    simp [validate_claim_with_oracle, hcfg, h]
  · intro h hcnt
    simp [validate_claim_with_oracle, hcfg, h, hcnt]

/-- Witness for C8: with validation disabled the call returns success
and no oracle call; with the strict configuration and an oracle
reporting zero submissions it fails with
`InsufficientOracleSubmissions`. -/
theorem validate_claim_with_oracle_gate_witness :
    validate_claim_with_oracle stCfgOff oraZero 1 9 = (.ok true, stCfgOff, []) ∧
    validate_claim_with_oracle stCfgStrict oraZero 1 9 =
      (.error .InsufficientOracleSubmissions, stCfgStrict,
        [ExtCall.getSubmissionCount 3 9]) :=
  ⟨(validate_claim_with_oracle_gate stCfgOff oraZero 1 9 cfgOff rfl).1 rfl,
   (validate_claim_with_oracle_gate stCfgStrict oraZero 1 9 cfgStrict rfl).2 rfl
     (by decide)⟩

/-- C9: `settle_claim` on an `Approved` claim invokes the risk pool's
payout exactly once (the call trace is the one-element payout list) and
marks the claim `Settled`; on a claim in any other state it fails with
`InvalidState` without invoking the payout; and re-settling the freshly
settled claim fails with `InvalidState` with no further payout. -/
theorem settle_claim_behaviour (st : ClaimsState) (cid : Nat) (c : ClaimRec)
    (a pc rp : Nat)
    (hadmin : st.admin = some a) (hconf : st.config = some (pc, rp))
    (hc : st.claims cid = some c) :
    (c.status = .Approved →
      (settle_claim st cid).1 = .ok () ∧
      (settle_claim st cid).2.2 = [ExtCall.payoutReserved rp cid c.claimant] ∧
      (settle_claim st cid).2.1.claims cid = some { c with status := .Settled } ∧
      settle_claim (settle_claim st cid).2.1 cid =
        (.error .InvalidState, (settle_claim st cid).2.1, [])) ∧
    (c.status ≠ .Approved → settle_claim st cid = (.error .InvalidState, st, [])) := by
  constructor
  · intro h
    have hrun : settle_claim st cid =
        (.ok (),
         { st with claims := fun k => if k = cid then some { c with status := .Settled } else st.claims k },
         [ExtCall.payoutReserved rp cid c.claimant]) := by
      simp [settle_claim, hadmin, hc, h, hconf]
    refine ⟨by rw [hrun], by rw [hrun], by rw [hrun]; simp, ?_⟩
    rw [hrun]
    simp [settle_claim, hadmin]
  · intro h
    simp [settle_claim, hadmin, hc, h]

/-- Witness for C9: settling a concrete `Approved` claim pays out once
(to risk pool 200 for claimant 7) and marks it `Settled`, and the
re-settle attempt fails with `InvalidState`. -/
theorem settle_claim_behaviour_witness :
    (settle_claim (stWith recApproved) 1).1 = .ok () ∧
    (settle_claim (stWith recApproved) 1).2.2 = [ExtCall.payoutReserved 200 1 7] ∧
    (settle_claim (stWith recApproved) 1).2.1.claims 1 =
      some { recApproved with status := .Settled } ∧
    settle_claim (settle_claim (stWith recApproved) 1).2.1 1 =
      (.error .InvalidState, (settle_claim (stWith recApproved) 1).2.1, []) :=
  (settle_claim_behaviour (stWith recApproved) 1 recApproved 0 100 200
    rfl rfl rfl).1 rfl

/-- C10: when no oracle configuration has ever been stored,
`validate_claim_with_oracle` fails with `NotFound` (it does not treat
the absent configuration as a disabled gate), while `approve_claim` in
the same situation skips the oracle gate entirely and proceeds — its
only external call is the risk-pool reservation. -/
theorem unconfigured_oracle_divergence (st : ClaimsState) (ora : OracleEnv)
    (cid oid : Nat) (odid : Option Nat) (c : ClaimRec) (a pc rp : Nat)
    (hcfg : st.oracleCfg = none) (hadmin : st.admin = some a)
    (hc : st.claims cid = some c) (hs : c.status = .UnderReview)
    (hconf : st.config = some (pc, rp)) :
    validate_claim_with_oracle st ora cid oid = (.error .NotFound, st, []) ∧
    (approve_claim st ora cid odid).1 = .ok () ∧
    (approve_claim st ora cid odid).2.2 = [ExtCall.reserveLiquidity rp cid c.amount] := by
  refine ⟨by simp [validate_claim_with_oracle, hcfg], ?_, ?_⟩ <;>
    simp [approve_claim, hadmin, hc, hs, hcfg, hconf]

/-- Witness for C10: on a concrete unconfigured state with an
under-review claim, `validate_claim_with_oracle` fails with `NotFound`
while `approve_claim` succeeds and only calls the risk pool. -/
theorem unconfigured_oracle_divergence_witness :
    validate_claim_with_oracle (stWith recUnderReview) oraZero 1 9 =
      (.error .NotFound, stWith recUnderReview, []) ∧
    (approve_claim (stWith recUnderReview) oraZero 1 none).1 = .ok () ∧
    (approve_claim (stWith recUnderReview) oraZero 1 none).2.2 =
      [ExtCall.reserveLiquidity 200 1 5] :=
  unconfigured_oracle_divergence (stWith recUnderReview) oraZero 1 9 none
    recUnderReview 0 100 200 rfl rfl rfl rfl rfl

end ClaimsContract

namespace ClaimsContract

/-- C3 counterexample: starting from an initialized empty state, two
`submit_claim` calls at the same ledger sequence 0 (for distinct
policies 1 and 2) both succeed and both return claim id 1, and the
second overwrites the claim record minted by the first (the record at
claim id 1 changes from policy 1 / claimant 10 / amount 5 to policy 2 /
claimant 11 / amount 7). -/
theorem submit_claim_id_collision_counterexample :
    (submit_claim stEmpty led0 10 1 5).1 = .ok 1 ∧
    (submit_claim stAfterFirst led0 11 2 7).1 = .ok 1 ∧
    stAfterFirst.claims 1 = some (ClaimRec.mk 1 10 5 .Submitted 0) ∧
    (submit_claim stAfterFirst led0 11 2 7).2.claims 1 =
      some (ClaimRec.mk 2 11 7 .Submitted 0) :=
  ⟨rfl, rfl, rfl, rfl⟩

/-- C3 (amended): two successful `submit_claim` calls executed at
distinct ledger sequence numbers return distinct claim ids, and the
later submission leaves the earlier claim record intact; at the same
sequence number the ids collide and the later call overwrites the
earlier record. -/
theorem submit_claim_distinct_sequences {st st' st'' : ClaimsState}
    {led led' : Ledger} {c1 c2 p1 p2 : Nat} {a1 a2 : Int} {id1 id2 : Nat}
    (h1 : submit_claim st led c1 p1 a1 = (.ok id1, st'))
    (h2 : submit_claim st' led' c2 p2 a2 = (.ok id2, st''))
    (hseq : led.sequence ≠ led'.sequence) :
    id1 ≠ id2 ∧
    st''.claims id1 = some (ClaimRec.mk p1 c1 a1 .Submitted led.timestamp) := by
  obtain ⟨-, -, -, hid1, -, -, -, -, -, hrec1, -⟩ := submit_claim_inv h1
  obtain ⟨-, -, -, hid2, -, -, -, -, -, -, hframe⟩ := submit_claim_inv h2
  have hne : id1 ≠ id2 := by
    rw [hid1, hid2]
    exact fun hcontra => hseq (Nat.add_right_cancel hcontra)
  exact ⟨hne, (hframe id1 hne).trans hrec1⟩

/-- Witness for the amended C3: two concrete submissions at sequences 0
and 1 return ids 1 and 2, and the first record survives the second
call. -/
theorem submit_claim_distinct_sequences_witness :
    (1 : Nat) ≠ 2 ∧
    stAfterSecond.claims 1 = some (ClaimRec.mk 1 10 5 .Submitted 0) :=
  @submit_claim_distinct_sequences stEmpty stAfterFirst stAfterSecond led0 led1
    10 11 1 2 5 7 1 2 rfl rfl (by decide)

/-- C4 counterexample: with a stored oracle configuration requiring
validation (minimum 5 submissions) and an oracle reporting 0
submissions, `approve_claim` with a supplied oracle reference succeeds
anyway — it never fails with `InsufficientOracleSubmissions` and its
call trace holds only the (discarded) submission-count query and the
risk-pool reservation, never a `resolve_oracle_data` request. -/
theorem approve_claim_ignores_oracle_count_counterexample :
    oraZero.submissionCount 9 < cfgStrict.min_oracle_submissions ∧
    (approve_claim stCfgStrict oraZero 1 (some 9)).1 = .ok () ∧
    (approve_claim stCfgStrict oraZero 1 (some 9)).2.2 =
      [ExtCall.getSubmissionCount 3 9, ExtCall.reserveLiquidity 200 1 5] :=
  ⟨by decide, rfl, rfl⟩

/-- C4 (amended): with oracle validation required, `approve_claim` on an
`UnderReview` claim fails with `OracleValidationFailed` when no
`oracle_data_id` is supplied, leaving all state unchanged; when an
`oracle_data_id` is supplied, the gate queries only the submission count
and discards it (for any oracle-reported count — so it never fails with
`InsufficientOracleSubmissions` and never requests the resolved
consensus value), records the oracle reference against the claim, and
approval proceeds with the risk-pool reservation. -/
theorem approve_claim_oracle_gate (st : ClaimsState) (ora : OracleEnv)
    (cid : Nat) (odid : Option Nat) (cfg : OracleValidationConfig)
    (c : ClaimRec) (a pc rp : Nat)
    (hadmin : st.admin = some a) (hc : st.claims cid = some c)
    (hs : c.status = .UnderReview) (hcfg : st.oracleCfg = some cfg)
    (hreq : cfg.require_oracle_validation = true)
    (hconf : st.config = some (pc, rp)) :
    (odid = none →
      approve_claim st ora cid odid = (.error .OracleValidationFailed, st, [])) ∧
    (∀ oid, odid = some oid →
      (approve_claim st ora cid odid).1 = .ok () ∧
      (approve_claim st ora cid odid).2.1.clmOra cid = some oid ∧
      (approve_claim st ora cid odid).2.1.claims cid = some { c with status := .Approved } ∧
      (approve_claim st ora cid odid).2.2 =
        [ExtCall.getSubmissionCount cfg.oracle_contract oid,
          ExtCall.reserveLiquidity rp cid c.amount]) := by
  constructor
  · intro h
    subst h
    simp [approve_claim, hadmin, hc, hs, hcfg, hreq]
  · intro oid h
    subst h
    refine ⟨?_, ?_, ?_, ?_⟩ <;>
      simp [approve_claim, hadmin, hc, hs, hcfg, hreq, hconf]

/-- Witness for the amended C4: on a concrete strict-oracle state,
approving without an oracle reference fails with
`OracleValidationFailed` and changes nothing, while approving with
reference 9 records it against claim 1. -/
theorem approve_claim_oracle_gate_witness :
    approve_claim stCfgStrict oraZero 1 none =
      (.error .OracleValidationFailed, stCfgStrict, []) ∧
    (approve_claim stCfgStrict oraZero 1 (some 9)).2.1.clmOra 1 = some 9 :=
  ⟨(approve_claim_oracle_gate stCfgStrict oraZero 1 none cfgStrict recUnderReview
      0 100 200 rfl rfl rfl rfl rfl rfl).1 rfl,
   ((approve_claim_oracle_gate stCfgStrict oraZero 1 (some 9) cfgStrict recUnderReview
      0 100 200 rfl rfl rfl rfl rfl rfl).2 9 rfl).2.1⟩

end ClaimsContract

namespace PolicyContract

/-- C6 counterexample: cancelling (or expiring) an already-`Cancelled`
policy fails, but with `InvalidStateTransition` — the error named by
`Policy::transition_to` — not with `InvalidState` as the claim states
(the declared Rust `ContractError` enum does not even contain the
`InvalidStateTransition` variant the source returns). -/
theorem cancel_policy_error_name_counterexample :
    cancel_policy stPol authAll 1 = (.error .InvalidStateTransition, stPol) ∧
    (cancel_policy stPol authAll 1).1 ≠ .error .InvalidState ∧
    expire_policy stPol authAll 1 = (.error .InvalidStateTransition, stPol) := by
  refine ⟨rfl, ?_, rfl⟩
  intro h
  exact ContractError.noConfusion (Except.error.inj h)

/-- C6 (amended): with the admin capability, `cancel_policy` and
`expire_policy` fail with `NotFound` when the policy id is unknown and
fail with `InvalidStateTransition` (the transition-graph error of
`Policy::transition_to`, not `InvalidState`) unless the policy is
`Active`; in particular a second lifecycle call against a terminal
(`Cancelled` or `Expired`) policy always fails and leaves the stored
policy unchanged. -/
theorem policy_lifecycle_guards (st : PolicyStorage) (auth : AuthEnv) (pid : Nat)
    (hauth : auth.adminOk = true) :
    (st.policies pid = none →
      cancel_policy st auth pid = (.error .NotFound, st) ∧
      expire_policy st auth pid = (.error .NotFound, st)) ∧
    (∀ p, st.policies pid = some p → p.state ≠ .Active →
      cancel_policy st auth pid = (.error .InvalidStateTransition, st) ∧
      expire_policy st auth pid = (.error .InvalidStateTransition, st)) := by
  constructor
  · intro h
    constructor <;> simp [cancel_policy, expire_policy, hauth, h]
  · intro p h hs
    have hcant : ∀ next, p.state.can_transition_to next = false := by
      intro next
      cases hps : p.state with
      | Active => exact absurd hps hs
      | Expired => cases next <;> rfl
      | Cancelled => cases next <;> rfl
    constructor <;>
      simp [cancel_policy, expire_policy, hauth, h, Policy.cancel, Policy.expire,
        Policy.transition_to, hcant]

/-- Witness for the amended C6: the unknown policy id 2 gives
`NotFound`, and both lifecycle calls against the concrete `Cancelled`
policy 1 fail with `InvalidStateTransition`, leaving the state
unchanged. -/
theorem policy_lifecycle_guards_witness :
    (cancel_policy stPol authAll 2 = (.error .NotFound, stPol) ∧
     expire_policy stPol authAll 2 = (.error .NotFound, stPol)) ∧
    (cancel_policy stPol authAll 1 = (.error .InvalidStateTransition, stPol) ∧
     expire_policy stPol authAll 1 = (.error .InvalidStateTransition, stPol)) :=
  ⟨(policy_lifecycle_guards stPol authAll 2 rfl).1 rfl,
   (policy_lifecycle_guards stPol authAll 1 rfl).2 polCancelled rfl (by decide)⟩

/-- C7 counterexample: when the `end_time` computation overflows `u64`
(timestamp `u64::MAX`, duration 1 day, all other inputs valid),
`issue_policy` fails with `Overflow2` (the invariant-range error code
107 used by the source), not with `Overflow`. -/
theorem issue_policy_overflow_counterexample :
    issue_policy stPolEmpty authAll ledMax 1 2 2000000 200000 1 =
      (.error .Overflow2, stPolEmpty) ∧
    (issue_policy stPolEmpty authAll ledMax 1 2 2000000 200000 1).1 ≠
      .error .Overflow := by
  refine ⟨rfl, ?_⟩
  intro h
  exact ContractError.noConfusion (Except.error.inj h)

/-- C7 (amended): for an authorized manager on an unpaused contract with
in-bounds coverage and premium, `issue_policy` fails with `InvalidInput`
when `duration_days` is zero or exceeds 365; for `duration_days` in
`[1, 365]` it succeeds when `timestamp + duration_days * 86400` fits in
`u64`, storing a policy with
`end_time = issuance timestamp + duration_days * 86400`, and fails with
`Overflow2` (not `Overflow`) when that sum overflows. -/
theorem issue_policy_behaviour (st : PolicyStorage) (auth : AuthEnv) (led : PLedger)
    (manager holder : Nat) (coverage_amount premium_amount : Int) (duration_days : Nat)
    (hauth : auth.policyManagerOk manager = true)
    (hpause : st.paused = false)
    (hcov : MIN_COVERAGE_AMOUNT ≤ coverage_amount ∧ coverage_amount ≤ MAX_COVERAGE_AMOUNT)
    (hprem : MIN_PREMIUM_AMOUNT ≤ premium_amount ∧ premium_amount ≤ MAX_PREMIUM_AMOUNT) :
    (duration_days = 0 ∨ 365 < duration_days →
      issue_policy st auth led manager holder coverage_amount premium_amount duration_days =
        (.error .InvalidInput, st)) ∧
    (1 ≤ duration_days → duration_days ≤ 365 →
      (led.timestamp + duration_days * 86400 ≤ U64_MAX →
        (issue_policy st auth led manager holder coverage_amount premium_amount duration_days).1
          = .ok (st.policyCounter + 1) ∧
        (issue_policy st auth led manager holder coverage_amount premium_amount duration_days).2.policies
            (st.policyCounter + 1)
          = some (Policy.new holder coverage_amount premium_amount led.timestamp
              (led.timestamp + duration_days * 86400) led.timestamp)) ∧
      (U64_MAX < led.timestamp + duration_days * 86400 →
        issue_policy st auth led manager holder coverage_amount premium_amount duration_days =
          (.error .Overflow2, st))) := by
  have hc1 : validate_coverage_amount coverage_amount = .ok () := by
    simp [validate_coverage_amount, not_lt.mpr hcov.1, not_lt.mpr hcov.2]
  have hc2 : validate_premium_amount premium_amount = .ok () := by
    simp [validate_premium_amount, not_lt.mpr hprem.1, not_lt.mpr hprem.2]
  constructor
  · intro hd
    have hd' : validate_duration duration_days = .error .InvalidInput := by
      rcases hd with h | h <;>
        simp [validate_duration, MIN_POLICY_DURATION_DAYS, MAX_POLICY_DURATION_DAYS, h]
    simp [issue_policy, hauth, hpause, hc1, hc2, hd']
  · intro hd1 hd2
    have hd' : validate_duration duration_days = .ok () := by
      simp [validate_duration, MIN_POLICY_DURATION_DAYS, MAX_POLICY_DURATION_DAYS,
        not_lt.mpr hd1, not_lt.mpr hd2]
    have hmul : checked_mul duration_days 86400 = some (duration_days * 86400) := by
      have hfits : duration_days * 86400 ≤ U64_MAX := by
        calc duration_days * 86400 ≤ 365 * 86400 := Nat.mul_le_mul_right _ hd2
        _ ≤ U64_MAX := by norm_num [U64_MAX]
      simp [checked_mul, hfits]
    constructor
    · intro hadd
      have hadd' : checked_add led.timestamp (duration_days * 86400) =
          some (led.timestamp + duration_days * 86400) := by
        simp [checked_add, hadd]
      constructor <;> simp [issue_policy, hauth, hpause, hc1, hc2, hd', hmul, hadd']
    · intro hadd
      have hadd' : checked_add led.timestamp (duration_days * 86400) = none := by
        simp [checked_add, not_le.mpr hadd]
      simp [issue_policy, hauth, hpause, hc1, hc2, hd', hmul, hadd']

/-- Witness for the amended C7: issuing a 30-day policy at timestamp
1000 stores `end_time = 1000 + 2592000 = 2593000`, and a zero-day
request fails with `InvalidInput`. -/
theorem issue_policy_behaviour_witness :
    ((issue_policy stPolEmpty authAll led1000 1 2 2000000 200000 30).1 = .ok 1 ∧
     (issue_policy stPolEmpty authAll led1000 1 2 2000000 200000 30).2.policies 1 =
       some (Policy.new 2 2000000 200000 1000 2593000 1000)) ∧
    issue_policy stPolEmpty authAll led1000 1 2 2000000 200000 0 =
      (.error .InvalidInput, stPolEmpty) :=
  ⟨((issue_policy_behaviour stPolEmpty authAll led1000 1 2 2000000 200000 30 rfl rfl
      (by decide) (by decide)).2 (by decide) (by decide)).1 (by decide),
   (issue_policy_behaviour stPolEmpty authAll led1000 1 2 2000000 200000 0 rfl rfl
      (by decide) (by decide)).1 (Or.inl rfl)⟩

end PolicyContract
